import Mathlib

/-!
Verification of the `safe_io` core of monoio-tls (`src/monoio-rustls/src/safe_io.rs`).

The source bridges a synchronous, blocking-style read/write interface with a
completion-based asynchronous transport. Two adapters, `SafeRead` and
`SafeWrite`, each own a staging buffer (a `BytesMut`, modelled as a `List Nat`
of bytes) together with a single-slot status cell. The asynchronous
`do_io` operations move data between the buffer and the transport; the
synchronous `read` / `write` / `flush` operations move data between the buffer
and the caller and never suspend (here: they are total pure functions).

Modelling decisions, each traceable to the source:
* `io::Error` is modelled as a kind plus an optional payload
  (`IOError`); `e.kind().into()` builds a fresh error from the kind alone and
  drops the payload, which the model mirrors with `ErrorKind.intoError`.
* The Rust field `buffer: Option<BytesMut>` exists only so ownership can be
  taken across a suspension point; the source's comment states it "always
  should be some", and every operation restores it before returning, so the
  model keeps the buffer as a plain byte list.
* `BytesMut::advance(n)` discards the first `n` bytes: `List.drop n`.
* The unchecked `copy_nonoverlapping` of `to_copy` bytes from the front of a
  buffer is `List.take to_copy`; a synchronous `read` returns the copied
  bytes themselves (their length is the count the Rust function returns).
* The transport is the adapter's environment: each `do_io` takes the
  completion result of the underlying call as an argument
  (bytes read for the read side, bytes written for the write side, or an
  error).
-/

namespace SafeIO

/-- `const BUFFER_SIZE: usize = 16 * 1024;` -/
def BUFFER_SIZE : Nat := 16 * 1024

/-- The kind of an `io::Error` (`io::ErrorKind`). `wouldBlock` is the one kind
the source constructs itself; all other kinds are abstracted by a code. -/
inductive ErrorKind where
  | wouldBlock
  | other (code : Nat)
deriving DecidableEq, Repr

/-- An `io::Error`: a kind plus an optional payload (message / source chain).
`io::Error::from(kind)` carries no payload. -/
structure IOError where
  kind : ErrorKind
  payload : Option (List Nat)
deriving DecidableEq, Repr

/-- `e.kind().into()`: a fresh error rebuilt from the kind alone. -/
def ErrorKind.intoError (k : ErrorKind) : IOError := ⟨k, none⟩

/-- `io::ErrorKind::WouldBlock.into()`, the would-block signal. -/
def wouldBlockErr : IOError := ErrorKind.wouldBlock.intoError

/-- `enum ReadStatus { Eof, Err(io::Error), Ok }` -/
inductive ReadStatus where
  | Eof
  | Err (e : IOError)
  | Ok
deriving DecidableEq, Repr

/-- `struct SafeRead { buffer: Option<BytesMut>, status: ReadStatus }`.
The `Option` is an ownership artifact (always `Some` outside the transfer
window), so the buffer is modelled as the byte list it holds. -/
structure SafeRead where
  buffer : List Nat
  status : ReadStatus
deriving DecidableEq, Repr

/-- `impl Default for SafeRead`: empty buffer, status `Ok`. -/
def SafeRead.default : SafeRead := ⟨[], ReadStatus.Ok⟩

/-- `SafeRead::do_io` (the asynchronous fill). `transport` is the completion
result of `io.read(buffer)` on the empty staging buffer: the bytes the
transport appended, or an error. If the buffer already holds data the
transport is not consulted and the current length is returned. -/
def SafeRead.do_io (s : SafeRead) (transport : Except IOError (List Nat)) :
    Except IOError Nat × SafeRead :=
  if s.buffer.isEmpty then
    match transport with
    | Except.ok data =>
      if data.length = 0 then
        (Except.ok 0, { buffer := s.buffer ++ data, status := ReadStatus.Eof })
      else
        (Except.ok data.length, { buffer := s.buffer ++ data, status := ReadStatus.Ok })
    | Except.error e =>
      (Except.error e.kind.intoError, { s with status := ReadStatus.Err e })
  else
    (Except.ok s.buffer.length, s)

/-- `impl io::Read for SafeRead`: the synchronous read. `destLen` is the
length of the destination slice; on success the copied bytes are returned
(the Rust function returns their count and writes them into `dest`). -/
def SafeRead.read (s : SafeRead) (destLen : Nat) :
    Except IOError (List Nat) × SafeRead :=
  if s.buffer.isEmpty then
    match s.status with
    | ReadStatus.Eof => (Except.ok [], { s with status := ReadStatus.Ok })
    | ReadStatus.Err e => (Except.error e, { s with status := ReadStatus.Ok })
    | ReadStatus.Ok => (Except.error wouldBlockErr, s)
  else
    let to_copy := min s.buffer.length destLen
    (Except.ok (s.buffer.take to_copy), { s with buffer := s.buffer.drop to_copy })

/-- `enum WriteStatus { Err(io::Error), Ok }` -/
inductive WriteStatus where
  | Err (e : IOError)
  | Ok
deriving DecidableEq, Repr

/-- `struct SafeWrite { buffer: Option<BytesMut>, status: WriteStatus }`. -/
structure SafeWrite where
  buffer : List Nat
  status : WriteStatus
deriving DecidableEq, Repr

/-- `impl Default for SafeWrite`: empty buffer, status `Ok`. -/
def SafeWrite.default : SafeWrite := ⟨[], WriteStatus.Ok⟩

/-- `SafeWrite::do_io` (the asynchronous drain). `transport` is the
completion result of `io.write_all(buffer)` on the non-empty staging buffer:
the count written (the `write_all` contract makes it the whole buffer on
success) or an error. `advance(written_len)` is `List.drop`. If the buffer
is empty the transport is not consulted and `Ok 0` is returned. -/
def SafeWrite.do_io (s : SafeWrite) (transport : Except IOError Nat) :
    Except IOError Nat × SafeWrite :=
  if s.buffer.isEmpty then
    (Except.ok 0, s)
  else
    match transport with
    | Except.ok written_len =>
      (Except.ok written_len, { s with buffer := s.buffer.drop written_len })
    | Except.error e =>
      (Except.error e.kind.intoError, { s with status := WriteStatus.Err e })

/-- `impl io::Write for SafeWrite::write`: pending error first, then the
capacity check, then copy `min(src_len, space_left)` bytes. -/
def SafeWrite.write (s : SafeWrite) (src : List Nat) :
    Except IOError Nat × SafeWrite :=
  match s.status with
  | WriteStatus.Err e => (Except.error e, { s with status := WriteStatus.Ok })
  | WriteStatus.Ok =>
    if BUFFER_SIZE ≤ s.buffer.length then
      (Except.error wouldBlockErr, s)
    else
      let space_left := BUFFER_SIZE - s.buffer.length
      let to_copy := min src.length space_left
      (Except.ok to_copy, { s with buffer := s.buffer ++ src.take to_copy })

/-- `impl io::Write for SafeWrite::flush`: pending error first, then
would-block while the buffer is non-empty, success on an empty buffer. -/
def SafeWrite.flush (s : SafeWrite) : Except IOError Unit × SafeWrite :=
  match s.status with
  | WriteStatus.Err e => (Except.error e, { s with status := WriteStatus.Ok })
  | WriteStatus.Ok =>
    if s.buffer.isEmpty then (Except.ok (), s)
    else (Except.error wouldBlockErr, s)

/-- Run a sequence of synchronous reads with the given destination lengths,
collecting the bytes each successful read returned (an erroring read
contributes no bytes). -/
def SafeRead.runReads (s : SafeRead) : List Nat → List Nat × SafeRead
  | [] => ([], s)
  | n :: ns =>
    match s.read n with
    | (Except.ok bs, s1) =>
      let r := s1.runReads ns
      (bs ++ r.1, r.2)
    | (Except.error _, s1) =>
      s1.runReads ns

/-- The `SafeWrite` states reachable from the default state through the
write, flush and drain operations. -/
inductive SafeWrite.Reachable : SafeWrite → Prop where
  | dflt : SafeWrite.Reachable SafeWrite.default
  | wr (s : SafeWrite) (src : List Nat) :
      SafeWrite.Reachable s → SafeWrite.Reachable (s.write src).2
  | fl (s : SafeWrite) :
      SafeWrite.Reachable s → SafeWrite.Reachable (s.flush).2
  | drain (s : SafeWrite) (t : Except IOError Nat) :
      SafeWrite.Reachable s → SafeWrite.Reachable (s.do_io t).2

/-! ### Helper lemmas -/

/-- Whatever the destination lengths, the bytes a sequence of synchronous
reads hands out, concatenated, followed by the bytes still buffered, are
exactly the bytes that were buffered at the start: reads deliver a prefix in
order, with no reordering, loss or duplication. -/
theorem SafeRead.runReads_append_buffer (ns : List Nat) :
    ∀ s : SafeRead, (s.runReads ns).1 ++ (s.runReads ns).2.buffer = s.buffer := by
  induction ns with
  | nil => intro s; simp [SafeRead.runReads]
  | cons n ns ih =>
    intro s
    by_cases hb : s.buffer.isEmpty
    · cases hst : s.status with
      | Eof => simp [SafeRead.runReads, SafeRead.read, hb, hst, ih]
      | Err e => simp [SafeRead.runReads, SafeRead.read, hb, hst, ih]
      | Ok => simp [SafeRead.runReads, SafeRead.read, hb, hst, ih]
    · simp [SafeRead.runReads, SafeRead.read, hb, List.append_assoc, ih]

end SafeIO

namespace SafeIO

/-! ### The claims -/

/-- C1: for a `SafeRead` state with a non-empty staging buffer, `read`
copies `min(buffer_len, dest_len)` bytes from the front of the buffer
(returned here as the byte list itself, whose length is the count the Rust
function returns), advances the consumed cursor by exactly that count,
leaves the status cell alone — and for any sequence of synchronous reads,
the concatenation of the bytes returned, followed by what remains buffered,
is the bytes originally filled, in order: no reordering, loss or
duplication. -/
theorem C1_read_copies_from_front (s : SafeRead) (destLen : Nat)
    (h : s.buffer ≠ []) (ns : List Nat) :
    (s.read destLen).1
        = Except.ok (s.buffer.take (min s.buffer.length destLen)) ∧
    (s.buffer.take (min s.buffer.length destLen)).length
        = min s.buffer.length destLen ∧
    (s.read destLen).2.buffer = s.buffer.drop (min s.buffer.length destLen) ∧
    (s.read destLen).2.status = s.status ∧
    (s.runReads ns).1 ++ (s.runReads ns).2.buffer = s.buffer := by
  have hb : s.buffer.isEmpty = false := by
    simpa [List.isEmpty_iff] using h
  refine ⟨?_, ?_, ?_, ?_, SafeRead.runReads_append_buffer ns s⟩
  · simp [SafeRead.read, hb]
  · simp [List.length_take, Nat.min_assoc]
  · simp [SafeRead.read, hb]
  · simp [SafeRead.read, hb]

/-- Witness for C1 at a concrete state: buffer `[5,6,7]`, destination of
length 2, then reads of lengths 2 and 1. -/
theorem C1_witness :
    ((⟨[5, 6, 7], ReadStatus.Ok⟩ : SafeRead).buffer ≠ []) ∧
    (SafeRead.read ⟨[5, 6, 7], ReadStatus.Ok⟩ 2).1 = Except.ok [5, 6] ∧
    (SafeRead.runReads ⟨[5, 6, 7], ReadStatus.Ok⟩ [2, 1]).1 = [5, 6, 7] := by
  have h := C1_read_copies_from_front ⟨[5, 6, 7], ReadStatus.Ok⟩ 2 (by decide) [2, 1]
  exact ⟨by decide, by simpa using h.1, by decide⟩

/-- C2: a transport error `e` observed by a fill or a drain is reported
exactly twice. Immediately, the awaiting asynchronous caller gets an error
built from `e`'s kind; `e` itself is parked in the status cell. The next
synchronous call that consults the cell (a `read` on the empty read buffer;
any `write` or `flush` on the write side) surfaces `e` once and resets the
cell to `Ok`. From a state whose cell is `Ok`, a synchronous call fails only
with the would-block signal and keeps the cell `Ok`, so `e` is never
surfaced a third time by the synchronous interface. -/
theorem C2_error_reported_twice_only (e : IOError) (sr : SafeRead)
    (sw : SafeWrite) (hr : sr.buffer = []) (hw : sw.buffer ≠ [])
    (destLen : Nat) (src : List Nat) :
    (sr.do_io (Except.error e)).1 = Except.error e.kind.intoError ∧
    (sr.do_io (Except.error e)).2.status = ReadStatus.Err e ∧
    (sr.do_io (Except.error e)).2.read destLen
        = (Except.error e, ⟨[], ReadStatus.Ok⟩) ∧
    (sw.do_io (Except.error e)).1 = Except.error e.kind.intoError ∧
    (sw.do_io (Except.error e)).2 = { sw with status := WriteStatus.Err e } ∧
    (sw.do_io (Except.error e)).2.write src
        = (Except.error e, { sw with status := WriteStatus.Ok }) ∧
    (sw.do_io (Except.error e)).2.flush
        = (Except.error e, { sw with status := WriteStatus.Ok }) ∧
    (∀ s : SafeRead, s.status = ReadStatus.Ok → ∀ n err,
      (s.read n).1 = Except.error err → err = wouldBlockErr) ∧
    (∀ s : SafeRead, s.status = ReadStatus.Ok → ∀ n,
      (s.read n).2.status = ReadStatus.Ok) ∧
    (∀ s : SafeWrite, s.status = WriteStatus.Ok → ∀ bs err,
      (s.write bs).1 = Except.error err → err = wouldBlockErr) ∧
    (∀ s : SafeWrite, s.status = WriteStatus.Ok → ∀ bs,
      (s.write bs).2.status = WriteStatus.Ok) ∧
    (∀ s : SafeWrite, s.status = WriteStatus.Ok → ∀ err,
      (s.flush).1 = Except.error err → err = wouldBlockErr) ∧
    (∀ s : SafeWrite, s.status = WriteStatus.Ok →
      (s.flush).2.status = WriteStatus.Ok) := by
  have hwb : sw.buffer.isEmpty = false := by simpa [List.isEmpty_iff] using hw
  refine ⟨?_, ?_, ?_, ?_, ?_, ?_, ?_, ?_, ?_, ?_, ?_, ?_, ?_⟩
  · simp [SafeRead.do_io, hr]
  · simp [SafeRead.do_io, hr]
  · simp [SafeRead.do_io, SafeRead.read, hr]
  · simp [SafeWrite.do_io, hwb]
  · simp [SafeWrite.do_io, hwb]
  · simp [SafeWrite.do_io, SafeWrite.write, hwb]
  · simp [SafeWrite.do_io, SafeWrite.flush, hwb]
  · intro s hs n err hread
    by_cases hb : s.buffer.isEmpty
    · simp [SafeRead.read, hb, hs] at hread
      exact hread.symm
    · simp [SafeRead.read, hb] at hread
  · intro s hs n
    by_cases hb : s.buffer.isEmpty <;> simp [SafeRead.read, hb, hs]
  · intro s hs bs err hwrite
    by_cases hfull : BUFFER_SIZE ≤ s.buffer.length
    · simp [SafeWrite.write, hs, hfull] at hwrite
      exact hwrite.symm
    · simp [SafeWrite.write, hs, hfull] at hwrite
  · intro s hs bs
    by_cases hfull : BUFFER_SIZE ≤ s.buffer.length <;>
      simp [SafeWrite.write, hs, hfull]
  · intro s hs err hflush
    by_cases hb : s.buffer.isEmpty
    · simp [SafeWrite.flush, hs, hb] at hflush
    · simp [SafeWrite.flush, hs, hb] at hflush
      exact hflush.symm
  · intro s hs
    by_cases hb : s.buffer.isEmpty <;> simp [SafeWrite.flush, hs, hb]

/-- Witness for C2: the error `⟨other 3, payload [9]⟩` observed on an empty
read buffer and on a write buffer holding one byte. -/
theorem C2_witness :
    ((⟨[], ReadStatus.Ok⟩ : SafeRead).buffer = []) ∧
    ((⟨[4], WriteStatus.Ok⟩ : SafeWrite).buffer ≠ []) ∧
    (SafeRead.do_io ⟨[], ReadStatus.Ok⟩
        (Except.error ⟨ErrorKind.other 3, some [9]⟩)).2.read 8
      = (Except.error ⟨ErrorKind.other 3, some [9]⟩, ⟨[], ReadStatus.Ok⟩) := by
  have h := C2_error_reported_twice_only ⟨ErrorKind.other 3, some [9]⟩
    ⟨[], ReadStatus.Ok⟩ ⟨[4], WriteStatus.Ok⟩ rfl (by decide) 8 [1]
  exact ⟨rfl, by decide, h.2.2.1⟩

/-- C3: after a fill observes zero bytes, the status cell holds `Eof`;
exactly one subsequent synchronous read on the empty buffer returns
zero-length success, and the state it leaves (`empty buffer, status Ok`) is
a fixed point on which every later read, with no intervening fill, returns
the would-block signal. -/
theorem C3_eof_delivered_once (s : SafeRead) (h : s.buffer = [])
    (n m : Nat) :
    s.do_io (Except.ok []) = (Except.ok 0, ⟨[], ReadStatus.Eof⟩) ∧
    SafeRead.read ⟨[], ReadStatus.Eof⟩ n
        = (Except.ok [], ⟨[], ReadStatus.Ok⟩) ∧
    SafeRead.read ⟨[], ReadStatus.Ok⟩ m
        = (Except.error wouldBlockErr, ⟨[], ReadStatus.Ok⟩) := by
  refine ⟨?_, by simp [SafeRead.read], by simp [SafeRead.read]⟩
  simp [SafeRead.do_io, h]

/-- Witness for C3 on the default read adapter with reads of length 4. -/
theorem C3_witness :
    (SafeRead.default.buffer = []) ∧
    SafeRead.default.do_io (Except.ok []) = (Except.ok 0, ⟨[], ReadStatus.Eof⟩) ∧
    SafeRead.read ⟨[], ReadStatus.Eof⟩ 4 = (Except.ok [], ⟨[], ReadStatus.Ok⟩) ∧
    SafeRead.read ⟨[], ReadStatus.Ok⟩ 4
        = (Except.error wouldBlockErr, ⟨[], ReadStatus.Ok⟩) := by
  have h := C3_eof_delivered_once SafeRead.default rfl 4 4
  exact ⟨rfl, h.1, h.2.1, h.2.2⟩

/-- C4: on an empty buffer with status `Ok`, `read` returns the would-block
signal (an error value of kind `wouldBlock`, distinguishable from every hard
error of another kind), leaves the state untouched, and never returns
zero-length success; `read` is a total pure function here, so it cannot
suspend or block. -/
theorem C4_empty_buffer_would_blocks (s : SafeRead) (h1 : s.buffer = [])
    (h2 : s.status = ReadStatus.Ok) (n : Nat) :
    s.read n = (Except.error wouldBlockErr, s) ∧
    wouldBlockErr.kind = ErrorKind.wouldBlock ∧
    (∀ e : IOError, e.kind ≠ ErrorKind.wouldBlock → wouldBlockErr ≠ e) ∧
    (∀ bs, (s.read n).1 ≠ Except.ok bs) := by
  have hb : s.buffer.isEmpty = true := by simp [h1]
  refine ⟨?_, rfl, ?_, ?_⟩
  · simp [SafeRead.read, hb, h2]
  · intro e he hcontra
    exact he (hcontra ▸ rfl)
  · intro bs
    simp [SafeRead.read, hb, h2]

/-- Witness for C4 on the default read adapter with a destination of
length 10. -/
theorem C4_witness :
    (SafeRead.default.buffer = []) ∧
    (SafeRead.default.status = ReadStatus.Ok) ∧
    SafeRead.default.read 10 = (Except.error wouldBlockErr, SafeRead.default) := by
  have h := C4_empty_buffer_would_blocks SafeRead.default rfl rfl 10
  exact ⟨rfl, rfl, h.1⟩

/-- C7: `flush` succeeds exactly when the buffer is empty and no error is
pending; a pending error is returned and the cell resets to `Ok`; with
status `Ok` and a non-empty buffer the result is the would-block signal and
nothing changes. -/
theorem C7_flush_succeeds_iff_empty_and_ok (s : SafeWrite) (e : IOError) :
    ((s.flush).1 = Except.ok () ↔ s.buffer = [] ∧ s.status = WriteStatus.Ok) ∧
    (s.status = WriteStatus.Err e →
      s.flush = (Except.error e, { s with status := WriteStatus.Ok })) ∧
    (s.status = WriteStatus.Ok → s.buffer ≠ [] →
      s.flush = (Except.error wouldBlockErr, s)) := by
  refine ⟨?_, ?_, ?_⟩
  · cases hst : s.status with
    | Err e' =>
      simp [SafeWrite.flush, hst]
    | Ok =>
      by_cases hb : s.buffer.isEmpty
      · simp [SafeWrite.flush, hst, hb, List.isEmpty_iff.mp hb]
      · have : ¬ s.buffer = [] := by simpa [List.isEmpty_iff] using hb
        simp [SafeWrite.flush, hst, hb, this]
  · intro hst
    simp [SafeWrite.flush, hst]
  · intro hst hb
    have : s.buffer.isEmpty = false := by simpa [List.isEmpty_iff] using hb
    simp [SafeWrite.flush, hst, this]

/-- Witness for C7 at a concrete state holding one unsent byte with a
pending error. -/
theorem C7_witness :
    ((SafeWrite.flush ⟨[3], WriteStatus.Err ⟨ErrorKind.other 1, none⟩⟩).1
        = Except.ok () ↔
      ((⟨[3], WriteStatus.Err ⟨ErrorKind.other 1, none⟩⟩ : SafeWrite).buffer = [] ∧
       (⟨[3], WriteStatus.Err ⟨ErrorKind.other 1, none⟩⟩ : SafeWrite).status
          = WriteStatus.Ok)) ∧
    SafeWrite.flush ⟨[3], WriteStatus.Err ⟨ErrorKind.other 1, none⟩⟩
      = (Except.error ⟨ErrorKind.other 1, none⟩, ⟨[3], WriteStatus.Ok⟩) := by
  have h := C7_flush_succeeds_iff_empty_and_ok
    ⟨[3], WriteStatus.Err ⟨ErrorKind.other 1, none⟩⟩ ⟨ErrorKind.other 1, none⟩
  exact ⟨h.1, h.2.1 rfl⟩

/-- C8: each adapter's status cell is a single field, so at most one
unconsumed status exists per side by construction; this theorem states the
delivery discipline. A pending read-side status is delivered by the next
read that finds the buffer empty (the call that would otherwise block):
`Eof` as zero-length success, `Err e` as `e`, and the cell resets to `Ok`.
A pending write-side error is delivered by the next `write` or `flush` —
in particular by one that would otherwise block — and the cell resets to
`Ok`. -/
theorem C8_pending_status_delivered_once (s : SafeRead) (w : SafeWrite)
    (e : IOError) (n : Nat) (src : List Nat) :
    (s.buffer = [] → s.status = ReadStatus.Eof →
      s.read n = (Except.ok [], { s with status := ReadStatus.Ok })) ∧
    (s.buffer = [] → s.status = ReadStatus.Err e →
      s.read n = (Except.error e, { s with status := ReadStatus.Ok })) ∧
    (w.status = WriteStatus.Err e →
      w.write src = (Except.error e, { w with status := WriteStatus.Ok }) ∧
      w.flush = (Except.error e, { w with status := WriteStatus.Ok })) := by
  refine ⟨?_, ?_, ?_⟩
  · intro hb hst
    simp [SafeRead.read, hb, hst]
  · intro hb hst
    simp [SafeRead.read, hb, hst]
  · intro hst
    exact ⟨by simp [SafeWrite.write, hst], by simp [SafeWrite.flush, hst]⟩

/-- Witness for C8: an empty read adapter holding `Err ⟨other 2, none⟩` and a
full-buffer write adapter holding the same pending error. -/
theorem C8_witness :
    ((⟨[], ReadStatus.Err ⟨ErrorKind.other 2, none⟩⟩ : SafeRead).buffer = []) ∧
    SafeRead.read ⟨[], ReadStatus.Err ⟨ErrorKind.other 2, none⟩⟩ 6
      = (Except.error ⟨ErrorKind.other 2, none⟩, ⟨[], ReadStatus.Ok⟩) ∧
    SafeWrite.write ⟨[8], WriteStatus.Err ⟨ErrorKind.other 2, none⟩⟩ [1, 2]
      = (Except.error ⟨ErrorKind.other 2, none⟩, ⟨[8], WriteStatus.Ok⟩) := by
  have h := C8_pending_status_delivered_once
    ⟨[], ReadStatus.Err ⟨ErrorKind.other 2, none⟩⟩
    ⟨[8], WriteStatus.Err ⟨ErrorKind.other 2, none⟩⟩
    ⟨ErrorKind.other 2, none⟩ 6 [1, 2]
  exact ⟨rfl, h.2.1 rfl rfl, (h.2.2 rfl).1⟩

/-- C9: with a non-empty buffer, a read into a zero-length destination is
zero-length success that consumes nothing and leaves the status cell alone
(the state is returned unchanged); consuming a pending `Eof` also yields
zero-length success, so a zero return alone does not distinguish
end-of-stream from a zero-capacity destination. -/
theorem C9_zero_length_destination (s : SafeRead) (h : s.buffer ≠ []) :
    s.read 0 = (Except.ok [], s) ∧
    SafeRead.read ⟨[], ReadStatus.Eof⟩ 0 = (Except.ok [], ⟨[], ReadStatus.Ok⟩) := by
  have hb : s.buffer.isEmpty = false := by simpa [List.isEmpty_iff] using h
  exact ⟨by simp [SafeRead.read, hb], by simp [SafeRead.read]⟩

/-- Witness for C9 at buffer `[1,2]`. -/
theorem C9_witness :
    ((⟨[1, 2], ReadStatus.Ok⟩ : SafeRead).buffer ≠ []) ∧
    SafeRead.read ⟨[1, 2], ReadStatus.Ok⟩ 0
      = (Except.ok [], ⟨[1, 2], ReadStatus.Ok⟩) := by
  have h := C9_zero_length_destination ⟨[1, 2], ReadStatus.Ok⟩ (by decide)
  exact ⟨by decide, h.1⟩

/-- C10: when a fill or drain observes transport error `e`, the value
returned to the asynchronous caller is rebuilt from `e`'s kind alone — its
payload is dropped on that path — while the original `e`, payload included,
is stored in the status cell and is what the next synchronous call
receives. -/
theorem C10_async_error_is_kind_only (e : IOError) (sr : SafeRead)
    (sw : SafeWrite) (hr : sr.buffer = []) (hw : sw.buffer ≠ []) (n : Nat) :
    (sr.do_io (Except.error e)).1 = Except.error ⟨e.kind, none⟩ ∧
    (sr.do_io (Except.error e)).2.status = ReadStatus.Err e ∧
    ((sr.do_io (Except.error e)).2.read n).1 = Except.error e ∧
    (sw.do_io (Except.error e)).1 = Except.error ⟨e.kind, none⟩ ∧
    (sw.do_io (Except.error e)).2.status = WriteStatus.Err e ∧
    ((sw.do_io (Except.error e)).2.write []).1 = Except.error e ∧
    ((sw.do_io (Except.error e)).2.flush).1 = Except.error e := by
  have hwb : sw.buffer.isEmpty = false := by simpa [List.isEmpty_iff] using hw
  refine ⟨?_, ?_, ?_, ?_, ?_, ?_, ?_⟩
  · simp [SafeRead.do_io, hr, ErrorKind.intoError]
  · simp [SafeRead.do_io, hr]
  · simp [SafeRead.do_io, SafeRead.read, hr]
  · simp [SafeWrite.do_io, hwb, ErrorKind.intoError]
  · simp [SafeWrite.do_io, hwb]
  · simp [SafeWrite.do_io, SafeWrite.write, hwb]
  · simp [SafeWrite.do_io, SafeWrite.flush, hwb]

/-- Witness for C10 with a payload-carrying error `⟨other 5, some [7,7]⟩`:
the asynchronous caller sees the payload-free `⟨other 5, none⟩`, the next
synchronous read sees the original. -/
theorem C10_witness :
    (SafeRead.do_io ⟨[], ReadStatus.Ok⟩
        (Except.error ⟨ErrorKind.other 5, some [7, 7]⟩)).1
      = Except.error ⟨ErrorKind.other 5, none⟩ ∧
    ((SafeRead.do_io ⟨[], ReadStatus.Ok⟩
        (Except.error ⟨ErrorKind.other 5, some [7, 7]⟩)).2.read 1).1
      = Except.error ⟨ErrorKind.other 5, some [7, 7]⟩ := by
  have h := C10_async_error_is_kind_only ⟨ErrorKind.other 5, some [7, 7]⟩
    ⟨[], ReadStatus.Ok⟩ ⟨[6], WriteStatus.Ok⟩ rfl (by decide) 1
  exact ⟨h.1, h.2.2.1⟩

/-- The staging buffer of every reachable `SafeWrite` state stays within
`BUFFER_SIZE`: `write` caps the copied length to the remaining space,
`flush` never grows the buffer, and a drain only discards. -/
theorem SafeWrite.reachable_buffer_le (s : SafeWrite) (h : s.Reachable) :
    s.buffer.length ≤ BUFFER_SIZE := by
  induction h with
  | dflt => simp [SafeWrite.default]
  | wr s src _ ih =>
    cases hst : s.status with
    | Err e => simpa [SafeWrite.write, hst] using ih
    | Ok =>
      by_cases hfull : BUFFER_SIZE ≤ s.buffer.length
      · simpa [SafeWrite.write, hst, hfull] using ih
      · simp only [SafeWrite.write, hst, hfull, if_neg, ite_false]
        simp [List.length_take]
        omega
  | fl s _ ih =>
    cases hst : s.status with
    | Err e => simpa [SafeWrite.flush, hst] using ih
    | Ok =>
      by_cases hb : s.buffer.isEmpty <;>
        simpa [SafeWrite.flush, hst, hb] using ih
  | drain s t _ ih =>
    by_cases hb : s.buffer.isEmpty
    · simpa [SafeWrite.do_io, hb] using ih
    · cases t with
      | ok wl =>
        simp [SafeWrite.do_io, hb]
        omega
      | error e => simpa [SafeWrite.do_io, hb] using ih

/-- A full staging buffer: `BUFFER_SIZE` zero bytes. -/
def fullBuf : List Nat := List.replicate BUFFER_SIZE 0

/-- A transport error carrying a payload, used to fail a drain. -/
def drainErr : IOError := ⟨ErrorKind.other 7, some [42]⟩

/-- Filling the default write adapter with one `BUFFER_SIZE`-byte write
yields a full buffer with status `Ok`. -/
theorem default_write_fullBuf :
    (SafeWrite.default.write fullBuf).2 = ⟨fullBuf, WriteStatus.Ok⟩ := by
  have hne0 : BUFFER_SIZE ≠ 0 := by norm_num [BUFFER_SIZE]
  simp [SafeWrite.write, SafeWrite.default, fullBuf, List.take_replicate, hne0]

/-- The reachable state with a full buffer and a pending drain error:
fill the default adapter, then fail the drain. -/
def fullErrState : SafeWrite :=
  ((SafeWrite.default.write fullBuf).2.do_io (Except.error drainErr)).2

/-- `fullErrState` spelled out. -/
theorem fullErrState_eq :
    fullErrState = ⟨fullBuf, WriteStatus.Err drainErr⟩ := by
  have hne : fullBuf ≠ [] := by
    norm_num [fullBuf, List.replicate_eq_nil_iff, BUFFER_SIZE]
  have hb : fullBuf.isEmpty = false := List.isEmpty_eq_false.mpr hne
  rw [show fullErrState
      = ((SafeWrite.default.write fullBuf).2.do_io (Except.error drainErr)).2
    from rfl, default_write_fullBuf]
  simp [SafeWrite.do_io, hb]

/-- C5 counterexample: a reachable state whose buffer is at full capacity
but whose status cell holds a pending drain error. Its `write` returns that
pending error — which is not the would-block signal — so the claim that a
write on a full buffer always returns would-block is false as stated. -/
theorem C5_counterexample :
    SafeWrite.Reachable fullErrState ∧
    fullErrState.buffer.length = BUFFER_SIZE ∧
    (fullErrState.write [1]).1 = Except.error drainErr ∧
    drainErr ≠ wouldBlockErr ∧
    drainErr.kind ≠ ErrorKind.wouldBlock := by
  refine ⟨SafeWrite.Reachable.drain _ _
    (SafeWrite.Reachable.wr _ _ SafeWrite.Reachable.dflt), ?_, ?_, ?_, ?_⟩
  · simp [fullErrState_eq, fullBuf]
  · simp [fullErrState_eq, SafeWrite.write]
  · simp [drainErr, wouldBlockErr, ErrorKind.intoError]
  · simp [drainErr]

/-- C5 amended: in every state reachable from the default write adapter
through write, flush and drain, the buffer length never exceeds
`BUFFER_SIZE`; `write` on a full buffer with no pending error returns the
would-block signal without copying any bytes; with a pending error, `write`
returns that error instead — also without copying any bytes. -/
theorem C5_buffer_bounded_and_full_write (s : SafeWrite) (h : s.Reachable)
    (src : List Nat) :
    s.buffer.length ≤ BUFFER_SIZE ∧
    (s.status = WriteStatus.Ok → BUFFER_SIZE ≤ s.buffer.length →
      s.write src = (Except.error wouldBlockErr, s)) ∧
    (∀ e, s.status = WriteStatus.Err e →
      s.write src = (Except.error e, { s with status := WriteStatus.Ok })) := by
  refine ⟨SafeWrite.reachable_buffer_le s h, ?_, ?_⟩
  · intro hst hfull
    simp [SafeWrite.write, hst, hfull]
  · intro e hst
    simp [SafeWrite.write, hst]

/-- Witness for C5's amended claim at the reachable full-buffer state with
status `Ok`: the bound holds with equality and the write would-blocks. -/
theorem C5_witness :
    SafeWrite.Reachable (SafeWrite.default.write fullBuf).2 ∧
    (SafeWrite.default.write fullBuf).2.buffer.length ≤ BUFFER_SIZE ∧
    (SafeWrite.default.write fullBuf).2.write [1]
      = (Except.error wouldBlockErr, (SafeWrite.default.write fullBuf).2) := by
  have hr : SafeWrite.Reachable (SafeWrite.default.write fullBuf).2 :=
    SafeWrite.Reachable.wr _ _ SafeWrite.Reachable.dflt
  have h := C5_buffer_bounded_and_full_write _ hr [1]
  refine ⟨hr, h.1, h.2.1 ?_ ?_⟩
  · rw [default_write_fullBuf]
  · rw [default_write_fullBuf]
    simp [fullBuf]

/-- C6: with no pending error and spare capacity, `write` copies exactly
`min(src_len, BUFFER_SIZE - buffer_len)` bytes (appended to the buffer) and
returns that count; in the 20 KiB scenario, writing `big` of length 20480
into the default adapter returns 16384, a successful drain empties the
buffer, and the subsequent write of the remaining bytes returns 4096. -/
theorem C6_write_copies_min (s : SafeWrite) (src : List Nat)
    (hok : s.status = WriteStatus.Ok) (hlt : s.buffer.length < BUFFER_SIZE)
    (big : List Nat) (hbig : big.length = 20480) :
    s.write src
        = (Except.ok (min src.length (BUFFER_SIZE - s.buffer.length)),
           { s with buffer :=
              s.buffer ++ src.take (min src.length (BUFFER_SIZE - s.buffer.length)) }) ∧
    (SafeWrite.default.write big).1 = Except.ok 16384 ∧
    ((SafeWrite.default.write big).2.do_io (Except.ok 16384)).2.buffer = [] ∧
    (((SafeWrite.default.write big).2.do_io (Except.ok 16384)).2.write
        (big.drop 16384)).1 = Except.ok 4096 := by
  have hBS : BUFFER_SIZE = 16384 := by norm_num [BUFFER_SIZE]
  have hw2 : (SafeWrite.default.write big).2 = ⟨big.take 16384, WriteStatus.Ok⟩ := by
    simp [SafeWrite.write, SafeWrite.default, hBS, hbig]
  have htlen : (big.take 16384).length = 16384 := by
    simp [List.length_take, hbig]
  have htne : (big.take 16384).isEmpty = false := by
    simp [List.isEmpty_iff]
    intro hnil
    rw [hnil] at htlen
    simp at htlen
  have hdrain : ((SafeWrite.default.write big).2.do_io (Except.ok 16384)).2
      = ⟨[], WriteStatus.Ok⟩ := by
    simp [hw2, SafeWrite.do_io, htne, List.drop_eq_nil_iff, htlen]
  refine ⟨?_, ?_, ?_, ?_⟩
  · simp [SafeWrite.write, hok, Nat.not_le.mpr hlt]
  · simp [SafeWrite.write, SafeWrite.default, hBS, hbig]
  · rw [hdrain]
  · rw [hdrain]
    norm_num [SafeWrite.write, hBS, List.length_drop, hbig]

/-- Witness for C6: a buffer holding two bytes accepts a three-byte write
whole, and the 20 KiB scenario is run on `List.replicate 20480 0`. -/
theorem C6_witness :
    ((⟨[9, 9], WriteStatus.Ok⟩ : SafeWrite).status = WriteStatus.Ok) ∧
    ((⟨[9, 9], WriteStatus.Ok⟩ : SafeWrite).buffer.length < BUFFER_SIZE) ∧
    (SafeWrite.write ⟨[9, 9], WriteStatus.Ok⟩ [1, 2, 3]).1 = Except.ok 3 ∧
    (SafeWrite.default.write (List.replicate 20480 0)).1 = Except.ok 16384 := by
  have h := C6_write_copies_min ⟨[9, 9], WriteStatus.Ok⟩ [1, 2, 3] rfl
    (by norm_num [BUFFER_SIZE]) (List.replicate 20480 0)
    (List.length_replicate 20480 0)
  refine ⟨rfl, by norm_num [BUFFER_SIZE], ?_, h.2.1⟩
  rw [h.1]
  norm_num [BUFFER_SIZE]

end SafeIO
